import Mathlib

/-
Verification of the authenticated dispatch layer of a Digi-Key API client
(file digikey/v4/api.py). The Python code is shallowly embedded: methods
become pure Lean functions, in-place mutation of the caller-supplied sink
dictionaries becomes explicit state passing, raised exceptions become
explicit error values, and the external effects (the OAuth2 token exchange
and the underlying generated HTTP operation) become oracle parameters.
-/

set_option autoImplicit false

namespace DigikeyV4

/-- A value stored in one of the telemetry sink dictionaries: a Python int
or the Python None object. -/
inductive PyVal where
  | int (n : Int)
  | pyNone
deriving DecidableEq, Repr

/-- A Python dict with string keys and int-or-None values, embedded as an
association list without duplicate keys (assignment overwrites in place). -/
abbrev PyDict := List (String × PyVal)

/-- Embedding of Python dict assignment d[k] = v: overwrite the existing
entry for k, or append a new one. -/
def dictSet (d : PyDict) (k : String) (v : PyVal) : PyDict :=
  match d with
  | [] => [(k, v)]
  | (k2, v2) :: rest => if k2 = k then (k, v) :: rest else (k2, v2) :: dictSet rest k v

/-- Embedding of Python dict lookup d[k]: some value, or none for a KeyError. -/
def dictGet (d : PyDict) (k : String) : Option PyVal :=
  match d with
  | [] => Option.none
  | (k2, v2) :: rest => if k2 = k then some v2 else dictGet rest k

/-- The api_limits and status parameters are typed Optional[Dict] but the
code guards each write with an isinstance check, so a caller may pass the
Python None object, a dict, or any non-dict object. -/
inductive Sink where
  | pyNone
  | dict (d : PyDict)
  | nonDict
deriving DecidableEq, Repr

/-- Lookup of a key in a sink; non-dict sinks hold no keys. -/
def sinkGet (s : Sink) (k : String) : Option PyVal :=
  match s with
  | Sink.dict d => dictGet d k
  | _ => Option.none

/-- The HTTP response headers, a Python Dict[str, str]. -/
abbrev Headers := List (String × String)

/-- Embedding of Python dict lookup on the headers dict; none is a KeyError. -/
def hget (h : Headers) (k : String) : Option String :=
  match h with
  | [] => Option.none
  | (k2, v2) :: rest => if k2 = k then some v2 else hget rest k

/-- Whitespace characters stripped by the Python int builtin when parsing a string. -/
def isPyWs (c : Char) : Bool :=
  c = ' ' ∨ c = '\t' ∨ c = '\n' ∨ c = '\r' ∨ c = Char.ofNat 11 ∨ c = Char.ofNat 12

/-- Accumulating digit scanner for the Python int grammar: digits with
single underscores allowed between two digits. -/
def parseDigitsAux (acc : Nat) : List Char → Option Nat
  | [] => some acc
  | c :: cs =>
    if c.isDigit then parseDigitsAux (10 * acc + (c.toNat - 48)) cs
    else if c = '_' then
      match cs with
      | [] => Option.none
      | d :: cs2 =>
        if d.isDigit then parseDigitsAux (10 * acc + (d.toNat - 48)) cs2
        else Option.none
    else Option.none

/-- A nonempty digit sequence, first character a digit (no leading underscore). -/
def parseDigits (cs : List Char) : Option Nat :=
  match cs with
  | [] => Option.none
  | c :: rest => if c.isDigit then parseDigitsAux (c.toNat - 48) rest else Option.none

/-- Strip leading and trailing whitespace. -/
def stripWs (cs : List Char) : List Char :=
  ((cs.dropWhile isPyWs).reverse.dropWhile isPyWs).reverse

/-- Embedding of the Python int builtin applied to a str: optional
surrounding whitespace, an optional sign, then decimal digits with single
underscores between digits. Returns none where Python raises ValueError. -/
def pyIntOfString (s : String) : Option Int :=
  match stripWs s.toList with
  | '+' :: rest => (parseDigits rest).map (fun n => (n : Int))
  | '-' :: rest => (parseDigits rest).map (fun n => -(n : Int))
  | rest => (parseDigits rest).map (fun n => (n : Int))

/-- Embedding of _DigikeyApiWrapper._remaining_requests. The original
mutates the api_limits dict in place; here the updated sink is returned.
The two header lookups may raise KeyError and the two int conversions may
raise ValueError; both are caught by the except clause, which overwrites
both entries with None. The int conversions sit inside the isinstance
guard, so with a non-dict sink neither conversion runs. Logging is dropped. -/
def remaining_requests (header : Headers) (api_limits : Sink) : Sink :=
  match hget header "X-RateLimit-Limit", hget header "X-RateLimit-Remaining" with
  | some rate_limit, some rate_limit_rem =>
    match api_limits with
    | Sink.dict d =>
      match pyIntOfString rate_limit with
      | some n1 =>
        let d1 := dictSet d "api_requests_limit" (PyVal.int n1)
        match pyIntOfString rate_limit_rem with
        | some n2 => Sink.dict (dictSet d1 "api_requests_remaining" (PyVal.int n2))
        | Option.none =>
          Sink.dict (dictSet (dictSet d1 "api_requests_limit" PyVal.pyNone)
            "api_requests_remaining" PyVal.pyNone)
      | Option.none =>
        Sink.dict (dictSet (dictSet d "api_requests_limit" PyVal.pyNone)
          "api_requests_remaining" PyVal.pyNone)
    | s => s
  | _, _ =>
    match api_limits with
    | Sink.dict d =>
      Sink.dict (dictSet (dictSet d "api_requests_limit" PyVal.pyNone)
        "api_requests_remaining" PyVal.pyNone)
    | s => s

/-- Embedding of _DigikeyApiWrapper._store_api_statuscode: write the status
code into the sink when it is a dict, otherwise do nothing. The statuscode
argument is already an int, so the int conversion is the identity. -/
def store_api_statuscode (statuscode : Int) (status : Sink) : Sink :=
  match status with
  | Sink.dict d => Sink.dict (dictSet d "code" (PyVal.int statuscode))
  | s => s

/-- The three generated API family packages imported by api.py. -/
inductive ApiFamily where
  | productinformation
  | ordersupport
  | batchproductdetails
deriving DecidableEq, Repr

/-- The module argument of the wrapper constructor: a Python module object,
which is one of the three generated family packages or any other value. -/
inductive PyModule where
  | known (fam : ApiFamily)
  | other (id : Nat)
deriving DecidableEq, Repr

/-- Embedding of the apinames dict built in the constructor: the family
path segment used in the host URL. Lookup of any other module raises
KeyError, represented by none. -/
def apinames (m : PyModule) : Option String :=
  match m with
  | PyModule.known ApiFamily.productinformation => some "products"
  | PyModule.known ApiFamily.ordersupport => some "OrderDetails"
  | PyModule.known ApiFamily.batchproductdetails => some "BatchSearch"
  | PyModule.other _ => Option.none

/-- The three generated Configuration classes (opaque here). -/
inductive ConfigKind where
  | productInfo
  | orderDetails
  | batchSearch
deriving DecidableEq, Repr

/-- Exceptions the constructor can raise before token acquisition. -/
inductive InitError where
  | keyError
  | valueError
  | digikeyError
deriving DecidableEq, Repr

/-- Embedding of the if/elif/else chain selecting the Configuration class;
the else branch raises ValueError with message Invalid module provided. -/
def configuration_for (m : PyModule) : Except InitError ConfigKind :=
  match m with
  | PyModule.known ApiFamily.productinformation => Except.ok ConfigKind.productInfo
  | PyModule.known ApiFamily.ordersupport => Except.ok ConfigKind.orderDetails
  | PyModule.known ApiFamily.batchproductdetails => Except.ok ConfigKind.batchSearch
  | PyModule.other _ => Except.error InitError.valueError

/-- The wrapper constructor state reached just before the TokenHandler call
(the first network effect): the sandbox flag, the family path segment, the
configured host, and the client id placed in the api_key header slot. -/
structure PreTokenState where
  sandbox : Bool
  apiname : String
  host : String
  api_key_client_id : String
deriving DecidableEq, Repr

/-- Embedding of _DigikeyApiWrapper.__init__ up to (excluding) the
TokenHandler call, in source order: the apinames dict lookup (KeyError for
an unrecognized module), the Configuration dispatch chain (whose ValueError
branch can only be reached after the lookup succeeded), the None check on
the credentials (DigikeyError), then the host assignment with the sandbox
override. The client_id and client_secret parameters are typed str but may
be the Python None object, hence Option String. -/
def wrapper_init_pre_token (module : PyModule) (client_id client_secret : Option String)
    (client_sandbox : Bool) : Except InitError PreTokenState :=
  match apinames module with
  | Option.none => Except.error InitError.keyError
  | some apiname =>
    match configuration_for module with
    | Except.error e => Except.error e
    | Except.ok _cfg =>
      match client_id, client_secret with
      | some cid, some _csec =>
        let host :=
          if client_sandbox then "https://sandbox-api.digikey.com/" ++ apiname ++ "/v4"
          else "https://api.digikey.com/" ++ apiname ++ "/v4"
        Except.ok ⟨client_sandbox, apiname, host, cid⟩
      | _, _ => Except.error InitError.digikeyError

/-- Observer: the host configured by the constructor for a module and
sandbox flag, or none when the constructor fails before reaching the host
assignment. -/
def initHost (m : PyModule) (cid cs : Option String) (sandbox : Bool) : Option String :=
  match wrapper_init_pre_token m cid cs sandbox with
  | Except.ok s => some s.host
  | Except.error _ => Option.none

/-- Modelled from the spec: TokenHandler.get_access_token (module
digikey.oauth.oauth2, not under src/) performs the OAuth2
client-credentials exchange, a network round trip, and either yields a
token (whose get_authorization gives the ready-to-use header value) or
fails with an authentication error. Supplied as an oracle. -/
inductive TokenOutcome where
  | ok (access_token : String) (authorization : String)
  | authError
deriving DecidableEq, Repr

/-- The fully constructed wrapper: the fields of _DigikeyApiWrapper that
are read by call_api_function, plus the configured host. -/
structure WrapperState where
  sandbox : Bool
  host : String
  access_token : String
  authorization : String
  x_digikey_client_id : String
  wrapped_function_name : String
deriving DecidableEq, Repr

/-- Outcome of the whole constructor. The authFailed constructor records
that the token exchange was reached (so network I/O was performed) and
failed; failedBeforeToken records an exception raised before any I/O. -/
inductive InitResult where
  | failedBeforeToken (e : InitError)
  | authFailed (pre : PreTokenState)
  | ok (w : WrapperState)
deriving DecidableEq, Repr

/-- Predicate: the constructor failed before the token exchange. -/
def isConfigFailure (r : InitResult) : Bool :=
  match r with
  | InitResult.failedBeforeToken _ => true
  | _ => false

/-- Embedding of the full _DigikeyApiWrapper.__init__: the pre-token part,
then the TokenHandler call (the token oracle, consulted only when the
pre-token part raised nothing), then the population of the reused ids. The
storage path is only handed to TokenHandler, which the oracle abstracts. -/
def wrapper_init (wrapped_function_name : String) (module : PyModule)
    (client_id client_secret : Option String) (_storage_path : String)
    (client_sandbox : Bool) (tok : TokenOutcome) : InitResult :=
  match wrapper_init_pre_token module client_id client_secret client_sandbox with
  | Except.error e => InitResult.failedBeforeToken e
  | Except.ok pre =>
    match tok with
    | TokenOutcome.authError => InitResult.authFailed pre
    | TokenOutcome.ok access auth =>
      InitResult.ok ⟨pre.sandbox, pre.host, access, auth, pre.api_key_client_id,
        wrapped_function_name⟩

/-- An argument value forwarded to an underlying generated operation:
a Python string, int, or an opaque caller-supplied object such as a
request body. -/
inductive Arg where
  | str (s : String)
  | int (n : Int)
  | obj (id : Nat)
deriving DecidableEq, Repr

/-- Exceptions an underlying operation can raise. Modelled from the spec:
the three API families have independently generated client modules (api.py
imports ApiException from digikey.v4.productinformation.rest under the
alias ProductInfoApiException), so each family has its own ApiException
class, here tagged with its family; apiException carries the HTTP status
attribute. Any other exception is opaque. -/
inductive PyExc where
  | apiException (fam : ApiFamily) (status : Int)
  | other (id : Nat)
deriving DecidableEq, Repr

/-- Modelled from the spec: an underlying generated operation, called with
positional and keyword arguments, either returns the fixed 3-tuple of
(payload, status_code, headers) or raises. Supplied as an oracle. -/
inductive CallOutcome (α : Type) where
  | ok (payload : α) (status_code : Int) (headers : Headers)
  | exc (e : PyExc)
deriving DecidableEq, Repr

/-- The observable result of call_api_function: the returned payload or the
propagated exception, together with the final contents of the two sinks. -/
structure CallResult (α : Type) where
  result : Except PyExc α
  api_limits : Sink
  status : Sink

/-- Embedding of _DigikeyApiWrapper.call_api_function. The wrapped function
is fetched by name from the API instance; here it is the func oracle. The
call appends the client id after the caller's positional arguments and
passes the authorization header as a keyword argument ahead of the caller's
keyword arguments. On a normal return the rate-limit metadata and the
status code are recorded and the first tuple element is returned. The first
except clause catches only the productinformation ApiException class,
stores its status attribute in the status sink and re-raises the same
exception; the final except clause logs and re-raises any other exception
unchanged. -/
def call_api_function {α : Type} (w : WrapperState)
    (func : List Arg → List (String × Arg) → CallOutcome α)
    (args : List Arg) (kwargs : List (String × Arg))
    (api_limits status : Sink) : CallResult α :=
  match func (args ++ [Arg.str w.x_digikey_client_id])
      (("authorization", Arg.str w.authorization) :: kwargs) with
  | CallOutcome.ok payload sc headers =>
    ⟨Except.ok payload, remaining_requests headers api_limits,
      store_api_statuscode sc status⟩
  | CallOutcome.exc e =>
    match e with
    | PyExc.apiException fam s =>
      if fam = ApiFamily.productinformation then
        ⟨Except.error e, api_limits, store_api_statuscode s status⟩
      else
        ⟨Except.error e, api_limits, status⟩
    | PyExc.other _ => ⟨Except.error e, api_limits, status⟩

/-- The public client object: exactly the four fields stored by
DigikeyApi.__init__. The client_id and client_secret are typed str but may
be the Python None object, matching the None check inside the wrapper. -/
structure DigikeyApi where
  client_id : Option String
  client_secret : Option String
  storage_path : String
  client_sandbox : Bool
deriving DecidableEq, Repr

/-- The external effects one public call can hit: the token exchange and
the behaviour of the named underlying operation, both as oracles. -/
structure Env (α : Type) where
  token : TokenOutcome
  func : List Arg → List (String × Arg) → CallOutcome α

/-- Outcome of one public operation: an exception from the wrapper
constructor before token acquisition, an authentication failure in the
token exchange, or the result of call_api_function. -/
inductive OpResult (α : Type) where
  | initError (e : InitError)
  | authError
  | call (r : CallResult α)

/-- The body shared by the seven public methods: build a fresh
_DigikeyApiWrapper from the four stored fields, then delegate to
call_api_function with the arguments of the specific operation. -/
def dispatch {α : Type} (fname : String) (module : PyModule) (self : DigikeyApi)
    (env : Env α) (args : List Arg) (kwargs : List (String × Arg))
    (api_limits status : Sink) : OpResult α :=
  match wrapper_init fname module self.client_id self.client_secret self.storage_path
      self.client_sandbox env.token with
  | InitResult.failedBeforeToken e => OpResult.initError e
  | InitResult.authFailed _ => OpResult.authError
  | InitResult.ok w => OpResult.call (call_api_function w env.func args kwargs api_limits status)

/-- Embedding of DigikeyApi.keyword_search: a fresh wrapper for
keyword_search_with_http_info on productinformation, the body forwarded as
a keyword argument. The isinstance assertions of the public methods are
argument validation outside the modelled core. The object state is threaded
explicitly: the second component is self after the call. -/
def keyword_search {α : Type} (self : DigikeyApi) (body : Arg) (env : Env α)
    (api_limits status : Sink) : OpResult α × DigikeyApi :=
  (dispatch "keyword_search_with_http_info" (PyModule.known ApiFamily.productinformation)
    self env [] [("body", body)] api_limits status, self)

/-- Embedding of DigikeyApi.product_details: product_details_with_http_info
on productinformation, the part number forwarded positionally. -/
def product_details {α : Type} (self : DigikeyApi) (digikey_part_number : String)
    (env : Env α) (api_limits status : Sink) : OpResult α × DigikeyApi :=
  (dispatch "product_details_with_http_info" (PyModule.known ApiFamily.productinformation)
    self env [Arg.str digikey_part_number] [] api_limits status, self)

/-- Embedding of DigikeyApi.digi_reel_pricing: digi_reel_pricing_with_http_info
on productinformation, part number and quantity forwarded positionally. -/
def digi_reel_pricing {α : Type} (self : DigikeyApi) (digikey_part_number : String)
    (quantity : Int) (env : Env α) (api_limits status : Sink) : OpResult α × DigikeyApi :=
  (dispatch "digi_reel_pricing_with_http_info" (PyModule.known ApiFamily.productinformation)
    self env [Arg.str digikey_part_number, Arg.int quantity] [] api_limits status, self)

/-- Embedding of DigikeyApi.suggested_parts: suggested_parts_with_http_info
on productinformation, the part number forwarded positionally. -/
def suggested_parts {α : Type} (self : DigikeyApi) (digikey_part_number : String)
    (env : Env α) (api_limits status : Sink) : OpResult α × DigikeyApi :=
  (dispatch "suggested_parts_with_http_info" (PyModule.known ApiFamily.productinformation)
    self env [Arg.str digikey_part_number] [] api_limits status, self)

/-- Embedding of DigikeyApi.status_salesorder_id: order_status_with_http_info
on ordersupport, the sales order id forwarded positionally. -/
def status_salesorder_id {α : Type} (self : DigikeyApi) (sales_order_id : String)
    (env : Env α) (api_limits status : Sink) : OpResult α × DigikeyApi :=
  (dispatch "order_status_with_http_info" (PyModule.known ApiFamily.ordersupport)
    self env [Arg.str sales_order_id] [] api_limits status, self)

/-- Embedding of DigikeyApi.salesorder_history: order_history_with_http_info
on ordersupport, the two dates forwarded as keyword arguments. -/
def salesorder_history {α : Type} (self : DigikeyApi) (start_date end_date : String)
    (env : Env α) (api_limits status : Sink) : OpResult α × DigikeyApi :=
  (dispatch "order_history_with_http_info" (PyModule.known ApiFamily.ordersupport)
    self env [] [("start_date", Arg.str start_date), ("end_date", Arg.str end_date)]
    api_limits status, self)

/-- Embedding of DigikeyApi.batch_product_details:
batch_product_details_with_http_info on batchproductdetails, the body
forwarded as a keyword argument. -/
def batch_product_details {α : Type} (self : DigikeyApi) (body : Arg) (env : Env α)
    (api_limits status : Sink) : OpResult α × DigikeyApi :=
  (dispatch "batch_product_details_with_http_info" (PyModule.known ApiFamily.batchproductdetails)
    self env [] [("body", body)] api_limits status, self)

/-- Observer: full success of the rate-limit header parse, exactly the
condition under which the try block of _remaining_requests completes
without KeyError or ValueError. -/
def parseRateHeaders (headers : Headers) : Option (Int × Int) :=
  match hget headers "X-RateLimit-Limit", hget headers "X-RateLimit-Remaining" with
  | some a, some b =>
    match pyIntOfString a, pyIntOfString b with
    | some x, some y => some (x, y)
    | _, _ => Option.none
  | _, _ => Option.none

/-- Looking up the key just assigned returns the assigned value. -/
theorem dictGet_dictSet_self (d : PyDict) (k : String) (v : PyVal) :
    dictGet (dictSet d k v) k = some v := by
  induction d with
  | nil => simp [dictSet, dictGet]
  | cons p rest ih =>
    obtain ⟨k2, v2⟩ := p
    by_cases h : k2 = k
    · simp [dictSet, dictGet, h]
    · simp [dictSet, dictGet, h, ih]

/-- Assignment leaves the values of other keys unchanged. -/
theorem dictGet_dictSet_other (d : PyDict) (k k2 : String) (v : PyVal) (h : k2 ≠ k) :
    dictGet (dictSet d k v) k2 = dictGet d k2 := by
  induction d with
  | nil => simp [dictSet, dictGet, Ne.symm h]
  | cons p rest ih =>
    obtain ⟨k3, v3⟩ := p
    by_cases h3 : k3 = k
    · subst h3
      simp [dictSet, dictGet, Ne.symm h]
    · simp only [dictSet, if_neg h3, dictGet]
      by_cases h32 : k3 = k2
      · simp [h32]
      · simp [h32, ih]

/-- Reassigning the same key overwrites the previous assignment. -/
theorem dictSet_dictSet_self (d : PyDict) (k : String) (v1 v2 : PyVal) :
    dictSet (dictSet d k v1) k v2 = dictSet d k v2 := by
  induction d with
  | nil => simp [dictSet]
  | cons p rest ih =>
    obtain ⟨k2, w⟩ := p
    by_cases h : k2 = k
    · simp [dictSet, h]
    · simp [dictSet, h, ih]

/-- When both rate-limit headers are present and parse, the try block of
_remaining_requests completes and writes the two parsed integers. -/
theorem remaining_requests_parsed (headers : Headers) (d : PyDict) (x y : Int)
    (h : parseRateHeaders headers = some (x, y)) :
    remaining_requests headers (Sink.dict d) =
      Sink.dict (dictSet (dictSet d "api_requests_limit" (PyVal.int x))
        "api_requests_remaining" (PyVal.int y)) := by
  cases hL : hget headers "X-RateLimit-Limit" with
  | none => simp [parseRateHeaders, hL] at h
  | some a =>
    cases hR : hget headers "X-RateLimit-Remaining" with
    | none => simp [parseRateHeaders, hL, hR] at h
    | some b =>
      cases hx : pyIntOfString a with
      | none => simp [parseRateHeaders, hL, hR, hx] at h
      | some nx =>
        cases hy : pyIntOfString b with
        | none => simp [parseRateHeaders, hL, hR, hx, hy] at h
        | some ny =>
          simp [parseRateHeaders, hL, hR, hx, hy] at h
          obtain ⟨hx2, hy2⟩ := h
          subst hx2
          subst hy2
          simp [remaining_requests, hL, hR, hx, hy]

/-- When a rate-limit header is absent (KeyError) or malformed
(ValueError), the except clause of _remaining_requests overwrites both
entries of a dict sink with None; any value written before the failure is
overwritten. -/
theorem remaining_requests_unparsed (headers : Headers) (d : PyDict)
    (h : parseRateHeaders headers = Option.none) :
    remaining_requests headers (Sink.dict d) =
      Sink.dict (dictSet (dictSet d "api_requests_limit" PyVal.pyNone)
        "api_requests_remaining" PyVal.pyNone) := by
  cases hL : hget headers "X-RateLimit-Limit" with
  | none => simp [remaining_requests, hL]
  | some a =>
    cases hR : hget headers "X-RateLimit-Remaining" with
    | none => simp [remaining_requests, hL, hR]
    | some b =>
      cases hx : pyIntOfString a with
      | none => simp [remaining_requests, hL, hR, hx]
      | some nx =>
        cases hy : pyIntOfString b with
        | none =>
          simp [remaining_requests, hL, hR, hx, hy]
          rw [dictSet_dictSet_self]
        | some ny => simp [parseRateHeaders, hL, hR, hx, hy] at h

/-- A None sink is never written by _remaining_requests. -/
theorem remaining_requests_pyNone (headers : Headers) :
    remaining_requests headers Sink.pyNone = Sink.pyNone := by
  cases hL : hget headers "X-RateLimit-Limit" <;>
    cases hR : hget headers "X-RateLimit-Remaining" <;>
      simp [remaining_requests, hL, hR]

/-- A non-dict sink is never written by _remaining_requests. -/
theorem remaining_requests_nonDict (headers : Headers) :
    remaining_requests headers Sink.nonDict = Sink.nonDict := by
  cases hL : hget headers "X-RateLimit-Limit" <;>
    cases hR : hget headers "X-RateLimit-Remaining" <;>
      simp [remaining_requests, hL, hR]

/-- A concrete wrapper state, used for evaluating call_api_function. -/
def w0 : WrapperState :=
  ⟨false, "https://api.digikey.com/OrderDetails/v4", "tok", "Bearer tok", "client-id",
    "order_status_with_http_info"⟩

/-- A wrapped operation that raises the ordersupport ApiException with
status 404 on every call. -/
def raise404order : List Arg → List (String × Arg) → CallOutcome Unit :=
  fun _ _ => CallOutcome.exc (PyExc.apiException ApiFamily.ordersupport 404)

/-- A wrapped operation that raises the productinformation ApiException
with status 404 on every call. -/
def raise404prod : List Arg → List (String × Arg) → CallOutcome Unit :=
  fun _ _ => CallOutcome.exc (PyExc.apiException ApiFamily.productinformation 404)

/-- C1 counterexample: an underlying call that raises the ordersupport
ApiException with status 404 is caught only by the final except clause, so
a supplied dict status sink stays empty instead of receiving code 404; the
claim, quantified over every API family, fails at this input. -/
theorem C1_counterexample :
    (call_api_function w0 raise404order [] [] Sink.pyNone (Sink.dict [])).status
        = Sink.dict [] ∧
    sinkGet (call_api_function w0 raise404order [] [] Sink.pyNone (Sink.dict [])).status
        "code" ≠ some (PyVal.int 404) := by
  exact ⟨rfl, by decide⟩

/-- C1 amended: when the underlying operation raises an ApiException
carrying a status code, call_api_function re-raises the very same exception
and leaves the api_limits sink untouched; the status code is written into a
dict status sink exactly when the exception is of the productinformation
ApiException class (the only class named in the first except clause), and
for the other two families the sink is left unchanged. -/
theorem C1_status_on_api_exception {α : Type} (w : WrapperState)
    (func : List Arg → List (String × Arg) → CallOutcome α)
    (args : List Arg) (kwargs : List (String × Arg)) (al : Sink) (d : PyDict)
    (fam : ApiFamily) (s : Int)
    (h : func (args ++ [Arg.str w.x_digikey_client_id])
        (("authorization", Arg.str w.authorization) :: kwargs)
        = CallOutcome.exc (PyExc.apiException fam s)) :
    (call_api_function w func args kwargs al (Sink.dict d)).result
        = Except.error (PyExc.apiException fam s) ∧
    (call_api_function w func args kwargs al (Sink.dict d)).api_limits = al ∧
    (call_api_function w func args kwargs al (Sink.dict d)).status
        = (if fam = ApiFamily.productinformation
           then Sink.dict (dictSet d "code" (PyVal.int s)) else Sink.dict d) := by
  by_cases hf : fam = ApiFamily.productinformation <;>
    simp [call_api_function, h, store_api_statuscode, hf]

/-- C1 witness: the amended theorem applied to a productinformation
ApiException with status 404 and an empty dict status sink. -/
theorem C1_status_on_api_exception_witness :
    raise404prod [Arg.str "client-id"] [("authorization", Arg.str "Bearer tok")]
        = CallOutcome.exc (PyExc.apiException ApiFamily.productinformation 404) ∧
    (call_api_function w0 raise404prod [] [] Sink.pyNone (Sink.dict [])).status
        = (if ApiFamily.productinformation = ApiFamily.productinformation
           then Sink.dict (dictSet [] "code" (PyVal.int 404)) else Sink.dict []) :=
  ⟨rfl, (C1_status_on_api_exception w0 raise404prod [] [] Sink.pyNone []
    ApiFamily.productinformation 404 rfl).2.2⟩

/-- C2: when the underlying operation, called with the client id appended
after the positional arguments and the authorization header passed as a
keyword argument ahead of the forwarded keyword arguments, returns the
3-tuple (payload, status_code, headers), call_api_function returns the
payload, writes code = status_code into a dict status sink, and records the
rate-limit metadata from the headers into the api_limits sink. -/
theorem C2_success_returns_payload {α : Type} (w : WrapperState)
    (func : List Arg → List (String × Arg) → CallOutcome α)
    (args : List Arg) (kwargs : List (String × Arg)) (al : Sink) (d : PyDict)
    (payload : α) (sc : Int) (headers : Headers)
    (h : func (args ++ [Arg.str w.x_digikey_client_id])
        (("authorization", Arg.str w.authorization) :: kwargs)
        = CallOutcome.ok payload sc headers) :
    (call_api_function w func args kwargs al (Sink.dict d)).result = Except.ok payload ∧
    (call_api_function w func args kwargs al (Sink.dict d)).status
        = Sink.dict (dictSet d "code" (PyVal.int sc)) ∧
    (call_api_function w func args kwargs al (Sink.dict d)).api_limits
        = remaining_requests headers al := by
  simp [call_api_function, h, store_api_statuscode]

/-- A wrapped operation that returns payload 7, status 200 and no headers. -/
def ok200bare : List Arg → List (String × Arg) → CallOutcome Nat :=
  fun _ _ => CallOutcome.ok 7 200 []

/-- C2 witness: the theorem applied to a concrete successful operation. -/
theorem C2_success_returns_payload_witness :
    ok200bare [Arg.str "client-id"] [("authorization", Arg.str "Bearer tok")]
        = CallOutcome.ok 7 200 [] ∧
    (call_api_function w0 ok200bare [] [] Sink.pyNone (Sink.dict [])).result
        = Except.ok 7 :=
  ⟨rfl, (C2_success_returns_payload w0 ok200bare [] [] Sink.pyNone [] 7 200 [] rfl).1⟩

/-- C3: a successful call whose response headers carry integer-parsable
X-RateLimit-Limit and X-RateLimit-Remaining values returns the payload and
populates a dict api_limits sink with api_requests_limit and
api_requests_remaining equal to the two parsed integers. -/
theorem C3_rate_limit_telemetry {α : Type} (w : WrapperState)
    (func : List Arg → List (String × Arg) → CallOutcome α)
    (args : List Arg) (kwargs : List (String × Arg)) (st : Sink) (d : PyDict)
    (payload : α) (sc : Int) (headers : Headers) (aStr bStr : String) (nL nR : Int)
    (hok : func (args ++ [Arg.str w.x_digikey_client_id])
        (("authorization", Arg.str w.authorization) :: kwargs)
        = CallOutcome.ok payload sc headers)
    (hL : hget headers "X-RateLimit-Limit" = some aStr)
    (hR : hget headers "X-RateLimit-Remaining" = some bStr)
    (hx : pyIntOfString aStr = some nL)
    (hy : pyIntOfString bStr = some nR) :
    (call_api_function w func args kwargs (Sink.dict d) st).result = Except.ok payload ∧
    sinkGet (call_api_function w func args kwargs (Sink.dict d) st).api_limits
        "api_requests_limit" = some (PyVal.int nL) ∧
    sinkGet (call_api_function w func args kwargs (Sink.dict d) st).api_limits
        "api_requests_remaining" = some (PyVal.int nR) := by
  have hp : parseRateHeaders headers = some (nL, nR) := by
    simp [parseRateHeaders, hL, hR, hx, hy]
  have hr := remaining_requests_parsed headers d nL nR hp
  refine ⟨by simp [call_api_function, hok], ?_, ?_⟩
  · simp [call_api_function, hok, hr, sinkGet]
    rw [dictGet_dictSet_other _ _ _ _ (by decide), dictGet_dictSet_self]
  · simp [call_api_function, hok, hr, sinkGet, dictGet_dictSet_self]

/-- A wrapped operation answering with the rate-limit headers 120 and 119. -/
def ok200limits : List Arg → List (String × Arg) → CallOutcome Nat :=
  fun _ _ => CallOutcome.ok 7 200
    [("X-RateLimit-Limit", "120"), ("X-RateLimit-Remaining", "119")]

/-- C3 witness: the theorem applied to headers 120 and 119 yields the sink
values 120 and 119. -/
theorem C3_rate_limit_telemetry_witness :
    pyIntOfString "120" = some 120 ∧
    pyIntOfString "119" = some 119 ∧
    sinkGet (call_api_function w0 ok200limits [] [] (Sink.dict []) Sink.pyNone).api_limits
        "api_requests_limit" = some (PyVal.int 120) ∧
    sinkGet (call_api_function w0 ok200limits [] [] (Sink.dict []) Sink.pyNone).api_limits
        "api_requests_remaining" = some (PyVal.int 119) := by
  have h := C3_rate_limit_telemetry w0 ok200limits [] [] Sink.pyNone [] 7 200
    [("X-RateLimit-Limit", "120"), ("X-RateLimit-Remaining", "119")]
    "120" "119" 120 119 rfl (by decide) (by decide) (by decide) (by decide)
  exact ⟨by decide, by decide, h.2.1, h.2.2⟩

/-- C4: a successful call whose response headers are missing a rate-limit
key or carry a non-integer value still returns the payload, and a dict
api_limits sink receives None for both api_requests_limit and
api_requests_remaining. -/
theorem C4_rate_limit_degrades {α : Type} (w : WrapperState)
    (func : List Arg → List (String × Arg) → CallOutcome α)
    (args : List Arg) (kwargs : List (String × Arg)) (st : Sink) (d : PyDict)
    (payload : α) (sc : Int) (headers : Headers)
    (hok : func (args ++ [Arg.str w.x_digikey_client_id])
        (("authorization", Arg.str w.authorization) :: kwargs)
        = CallOutcome.ok payload sc headers)
    (hbad : parseRateHeaders headers = Option.none) :
    (call_api_function w func args kwargs (Sink.dict d) st).result = Except.ok payload ∧
    sinkGet (call_api_function w func args kwargs (Sink.dict d) st).api_limits
        "api_requests_limit" = some PyVal.pyNone ∧
    sinkGet (call_api_function w func args kwargs (Sink.dict d) st).api_limits
        "api_requests_remaining" = some PyVal.pyNone := by
  have hr := remaining_requests_unparsed headers d hbad
  refine ⟨by simp [call_api_function, hok], ?_, ?_⟩
  · simp [call_api_function, hok, hr, sinkGet]
    rw [dictGet_dictSet_other _ _ _ _ (by decide), dictGet_dictSet_self]
  · simp [call_api_function, hok, hr, sinkGet, dictGet_dictSet_self]

/-- C4 witness: the theorem applied to a response without headers. -/
theorem C4_rate_limit_degrades_witness :
    parseRateHeaders [] = Option.none ∧
    ((call_api_function w0 ok200bare [] [] (Sink.dict []) Sink.pyNone).result
        = Except.ok 7 ∧
      sinkGet (call_api_function w0 ok200bare [] [] (Sink.dict []) Sink.pyNone).api_limits
          "api_requests_limit" = some PyVal.pyNone ∧
      sinkGet (call_api_function w0 ok200bare [] [] (Sink.dict []) Sink.pyNone).api_limits
          "api_requests_remaining" = some PyVal.pyNone) :=
  ⟨rfl, C4_rate_limit_degrades w0 ok200bare [] [] Sink.pyNone [] 7 200 [] rfl rfl⟩

/-- C5: for each of the three API families the constructor configures the
host https://api.digikey.com/segment/v4 when the sandbox flag is false and
https://sandbox-api.digikey.com/segment/v4 when it is true, with the
segments products, OrderDetails and BatchSearch respectively. -/
theorem C5_family_hosts (cid cs : String) :
    initHost (PyModule.known ApiFamily.productinformation) (some cid) (some cs) false
        = some "https://api.digikey.com/products/v4" ∧
    initHost (PyModule.known ApiFamily.ordersupport) (some cid) (some cs) false
        = some "https://api.digikey.com/OrderDetails/v4" ∧
    initHost (PyModule.known ApiFamily.batchproductdetails) (some cid) (some cs) false
        = some "https://api.digikey.com/BatchSearch/v4" ∧
    initHost (PyModule.known ApiFamily.productinformation) (some cid) (some cs) true
        = some "https://sandbox-api.digikey.com/products/v4" ∧
    initHost (PyModule.known ApiFamily.ordersupport) (some cid) (some cs) true
        = some "https://sandbox-api.digikey.com/OrderDetails/v4" ∧
    initHost (PyModule.known ApiFamily.batchproductdetails) (some cid) (some cs) true
        = some "https://sandbox-api.digikey.com/BatchSearch/v4" :=
  ⟨rfl, rfl, rfl, rfl, rfl, rfl⟩

/-- C6 counterexample: with empty-string credentials the None check does
not fire, so construction is not a configuration failure: with a failing
token oracle it reaches the token exchange (network I/O) and fails there,
and with a succeeding oracle it completes; the claim, which requires a
configuration error before any token acquisition also for empty strings,
fails at this input. -/
theorem C6_counterexample :
    isConfigFailure (wrapper_init "product_details_with_http_info"
        (PyModule.known ApiFamily.productinformation) (some "") (some "") "/tmp/" false
        TokenOutcome.authError) = false ∧
    wrapper_init "product_details_with_http_info"
        (PyModule.known ApiFamily.productinformation) (some "") (some "") "/tmp/" false
        TokenOutcome.authError
      = InitResult.authFailed ⟨false, "products", "https://api.digikey.com/products/v4", ""⟩ ∧
    wrapper_init "product_details_with_http_info"
        (PyModule.known ApiFamily.productinformation) (some "") (some "") "/tmp/" false
        (TokenOutcome.ok "tok" "Bearer tok")
      = InitResult.ok ⟨false, "https://api.digikey.com/products/v4", "tok", "Bearer tok", "",
          "product_details_with_http_info"⟩ :=
  ⟨rfl, rfl, rfl⟩

/-- C6 amended: for a recognized module, construction fails with the
DigikeyError configuration error before any token acquisition exactly when
client_id or client_secret is the Python None object, for every token
oracle; empty-string credentials are not rejected and construction proceeds
to the token exchange. -/
theorem C6_none_credentials_fail_before_token (fname : String) (fam : ApiFamily)
    (cid cs : Option String) (sp : String) (sandbox : Bool) (tok : TokenOutcome)
    (h : cid = Option.none ∨ cs = Option.none) :
    wrapper_init fname (PyModule.known fam) cid cs sp sandbox tok
      = InitResult.failedBeforeToken InitError.digikeyError := by
  rcases h with h | h <;> subst h <;>
    cases fam <;>
      first
        | cases cs <;> simp [wrapper_init, wrapper_init_pre_token, apinames, configuration_for]
        | cases cid <;> simp [wrapper_init, wrapper_init_pre_token, apinames, configuration_for]

/-- C6 witness: the amended theorem applied with a None client_secret. -/
theorem C6_none_credentials_fail_before_token_witness :
    ((some "x" : Option String) = Option.none ∨ (Option.none : Option String) = Option.none) ∧
    wrapper_init "keyword_search_with_http_info"
        (PyModule.known ApiFamily.productinformation) (some "x") Option.none "/tmp/" false
        TokenOutcome.authError
      = InitResult.failedBeforeToken InitError.digikeyError :=
  ⟨Or.inr rfl, C6_none_credentials_fail_before_token "keyword_search_with_http_info"
    ApiFamily.productinformation (some "x") Option.none "/tmp/" false
    TokenOutcome.authError (Or.inr rfl)⟩

/-- C7 counterexample: with a module that is none of the three recognized
packages, the apinames dict lookup raises KeyError before the if/elif/else
chain runs, so the failure is not the ValueError of the Invalid module
provided branch; the claim names the wrong exception branch. -/
theorem C7_counterexample :
    wrapper_init "keyword_search_with_http_info" (PyModule.other 0) (some "id")
        (some "secret") "/tmp/" false TokenOutcome.authError
      = InitResult.failedBeforeToken InitError.keyError ∧
    InitError.keyError ≠ InitError.valueError :=
  ⟨rfl, by decide⟩

/-- C7 amended: for every module value other than the three recognized
packages, construction fails before any token acquisition, for every token
oracle, with the KeyError raised by the apinames dict lookup; the Invalid
module provided ValueError branch is unreachable because that lookup
precedes the dispatch chain. -/
theorem C7_unknown_module_fails_before_token (fname : String) (id : Nat)
    (cid cs : Option String) (sp : String) (sandbox : Bool) (tok : TokenOutcome) :
    wrapper_init fname (PyModule.other id) cid cs sp sandbox tok
      = InitResult.failedBeforeToken InitError.keyError := rfl

/-- C8: each of the seven public operations builds a fresh per-call wrapper
from the four stored fields and leaves the DigikeyApi object unchanged: the
threaded object state after any call equals the object before it. -/
theorem C8_no_state_across_calls {α : Type} (self : DigikeyApi) (env : Env α)
    (b b2 : Arg) (pn pn2 pn3 so sd ed : String) (q : Int) (al st : Sink) :
    (keyword_search self b env al st).2 = self ∧
    (product_details self pn env al st).2 = self ∧
    (digi_reel_pricing self pn2 q env al st).2 = self ∧
    (suggested_parts self pn3 env al st).2 = self ∧
    (status_salesorder_id self so env al st).2 = self ∧
    (salesorder_history self sd ed env al st).2 = self ∧
    (batch_product_details self b2 env al st).2 = self :=
  ⟨rfl, rfl, rfl, rfl, rfl, rfl, rfl⟩

/-- C9: a None or non-dict sink is never written by the metadata helpers or
by call_api_function, which passes such sinks through unchanged, and the
returned payload or propagated exception does not depend on either sink. -/
theorem C9_non_dict_sinks_ignored {α : Type} (w : WrapperState)
    (func : List Arg → List (String × Arg) → CallOutcome α)
    (args : List Arg) (kwargs : List (String × Arg)) (al al2 st st2 : Sink)
    (headers : Headers) (sc : Int) :
    remaining_requests headers Sink.pyNone = Sink.pyNone ∧
    remaining_requests headers Sink.nonDict = Sink.nonDict ∧
    store_api_statuscode sc Sink.pyNone = Sink.pyNone ∧
    store_api_statuscode sc Sink.nonDict = Sink.nonDict ∧
    (call_api_function w func args kwargs Sink.pyNone st).api_limits = Sink.pyNone ∧
    (call_api_function w func args kwargs Sink.nonDict st).api_limits = Sink.nonDict ∧
    (call_api_function w func args kwargs al Sink.pyNone).status = Sink.pyNone ∧
    (call_api_function w func args kwargs al Sink.nonDict).status = Sink.nonDict ∧
    (call_api_function w func args kwargs al st).result
        = (call_api_function w func args kwargs al2 st2).result := by
  refine ⟨remaining_requests_pyNone headers, remaining_requests_nonDict headers, rfl, rfl,
    ?_, ?_, ?_, ?_, ?_⟩ <;>
    cases hc : func (args ++ [Arg.str w.x_digikey_client_id])
        (("authorization", Arg.str w.authorization) :: kwargs) with
    | ok payload sc2 hdrs =>
      simp [call_api_function, hc, store_api_statuscode, remaining_requests_pyNone,
        remaining_requests_nonDict]
    | exc e =>
      cases e with
      | apiException fam s =>
        by_cases hf : fam = ApiFamily.productinformation <;>
          simp [call_api_function, hc, store_api_statuscode, hf]
      | other i => simp [call_api_function, hc]

/-- C10: after _remaining_requests runs on any headers and any dict sink,
the sink holds both keys and the pair is coherent: both are the parsed
integers, or both are None; a partial write is always overwritten by the
except clause. -/
theorem C10_sink_coherence (headers : Headers) (d : PyDict) :
    (∃ a b : Int,
      sinkGet (remaining_requests headers (Sink.dict d)) "api_requests_limit"
          = some (PyVal.int a) ∧
      sinkGet (remaining_requests headers (Sink.dict d)) "api_requests_remaining"
          = some (PyVal.int b)) ∨
    (sinkGet (remaining_requests headers (Sink.dict d)) "api_requests_limit"
        = some PyVal.pyNone ∧
     sinkGet (remaining_requests headers (Sink.dict d)) "api_requests_remaining"
        = some PyVal.pyNone) := by
  cases hp : parseRateHeaders headers with
  | some xy =>
    obtain ⟨x, y⟩ := xy
    left
    refine ⟨x, y, ?_, ?_⟩ <;> rw [remaining_requests_parsed headers d x y hp] <;>
      simp [sinkGet, dictGet_dictSet_self]
    rw [dictGet_dictSet_other _ _ _ _ (by decide), dictGet_dictSet_self]
  | none =>
    right
    refine ⟨?_, ?_⟩ <;> rw [remaining_requests_unparsed headers d hp] <;>
      simp [sinkGet, dictGet_dictSet_self]
    rw [dictGet_dictSet_other _ _ _ _ (by decide), dictGet_dictSet_self]

end DigikeyV4
